import Mathlib

/-!
Verification development for the sampled Kibana excerpt.

The main subject is `x-pack/plugins/ml/server/routes/job_validation.ts`:
the `jobValidationRoutes` registration function, which registers five POST
routes under `/api/ml/validate/...`, each with a body schema, the tag
`access:ml:canCreateJob`, a `routeGuard.fullLicenseAPIGuard` wrapper and a
handler that forwards the validated body to one model function.

A second subject is the declarative EQL detection rule
"Disable Windows Firewall Rules via Netsh" (a JSON rule document in the
excerpt), whose query is embedded here with standard EQL operator
precedence (`and` binds tighter than `or`).

Handlers are embedded as pure functions over the outcome of the single
model call they make: a promise that either resolves or rejects, or a
synchronous exception around it, is represented with `Except` and
`PromiseOutcome` values.
-/

namespace JobValidation

/-- Outcome of an awaited JS promise: it either resolves to a value or
rejects with a reason. -/
inductive PromiseOutcome (α ε : Type) where
  | resolved (value : α)
  | rejected (reason : ε)
deriving DecidableEq, Repr

/-- The sentinel body the estimate_bucket_span handler builds in its inner
`.catch`: the object literal with `error: true` and the rejection reason as
`message`. -/
structure ErrorSentinel (ε : Type) where
  error : Bool
  message : ε
deriving DecidableEq, Repr

/-- Body of an HTTP 200 response of the estimate_bucket_span route: either
the raw estimation result (`resp`) or the sentinel object (`errorResp`). -/
inductive EstimateRespBody (α ε : Type) where
  | estimation (value : α)
  | sentinel (s : ErrorSentinel ε)
deriving DecidableEq, Repr

/-- Modelled from the spec: `wrapError` (from `../client/error_wrapper`,
not part of this excerpt) is the generic HTTP error wrapper; here it is an
opaque-to-us wrapping of the caught error, which is all the routes in this
file depend on. -/
structure WrappedError (ε : Type) where
  error : ε
deriving DecidableEq, Repr

def wrapError {ε : Type} (e : ε) : WrappedError ε := { error := e }

/-- The possible responses a route in this file produces:
`ok` is `response.ok` (HTTP 200); `thrownBadRequest` is a thrown
`Boom.badRequest(e)` (HTTP 400); `customError` is
`response.customError(wrapError(e))` (status chosen by the wrapper);
`validationFailed` is the platform rejecting a body that fails the declared
schema (HTTP 400). -/
inductive RouteResponse (α ε : Type) where
  | ok (body : α)
  | thrownBadRequest (err : ε)
  | customError (wrapped : WrappedError ε)
  | validationFailed
deriving DecidableEq, Repr

/-- HTTP status of a response, where this excerpt determines it:
`response.ok` is 200, `Boom.badRequest` and a schema-validation failure are
400; the status of a `customError` response is chosen by `wrapError`,
whose implementation is outside the excerpt, hence `none`. -/
def statusCode {α ε : Type} : RouteResponse α ε → Option Nat
  | .ok _ => some 200
  | .thrownBadRequest _ => some 400
  | .customError _ => none
  | .validationFailed => some 400

/-- The estimate_bucket_span handler body (job_validation.ts lines 84-107).
Its single model call is `estimateBucketSpanFactory(client)(request.body)`;
the input is the outcome of evaluating that call: `Except.error` is a
synchronous exception thrown while running the estimation code (caught by
the outer `try`, rethrown as `Boom.badRequest`), `Except.ok` an awaited
promise that resolved or rejected. A rejection is captured by the inner
`.catch`, which sets `errorResp` to the sentinel object, and the handler
returns `response.ok` with `errorResp` when it is defined and with the
resolved `resp` otherwise. -/
def estimateBucketSpanHandler {α ε : Type}
    (run : Except ε (PromiseOutcome α ε)) : RouteResponse (EstimateRespBody α ε) ε :=
  match run with
  | .error e => .thrownBadRequest e
  | .ok (.resolved v) => .ok (.estimation v)
  | .ok (.rejected err) => .ok (.sentinel { error := true, message := err })

/-- The estimate_bucket_span route as dispatched: the platform first checks
the body against `estimateBucketSpanSchema` (declared in the route's
`validate.body`); only a valid body reaches the handler. Modelled from the
spec for the platform part: a malformed body is rejected with HTTP 400
before the handler runs. -/
def estimateBucketSpanRouteResp {α ε : Type}
    (bodyValid : Bool) (run : Except ε (PromiseOutcome α ε)) :
    RouteResponse (EstimateRespBody α ε) ε :=
  if bodyValid then estimateBucketSpanHandler run else .validationFailed

/-- The shared shape of the other four handlers in the file
(calculate_model_memory_limit, cardinality, job, datafeed_preview):
await the single model call; on success return `response.ok` with the
result unmodified; on a thrown error return
`response.customError(wrapError(e))`. -/
def passThroughHandler {α ε : Type} (run : Except ε α) : RouteResponse α ε :=
  match run with
  | .ok resp => .ok resp
  | .error e => .customError (wrapError e)

/-- Modelled from the spec: `calculateModelMemoryLimitProvider` (in
`models/calculate_model_memory_limit`, not part of this excerpt) resolves
to an object carrying the model memory limit as a string, per the route's
apidoc (`@apiSuccess` String `modelMemoryLimit`) and the spec line saying
the route returns an object with a string `modelMemoryLimit` field. -/
structure ModelMemoryEstimate where
  modelMemoryLimit : String
deriving DecidableEq, Repr

/-- The calculate_model_memory_limit route as dispatched: schema check
(`modelMemoryLimitSchema`), then the pass-through handler around the
`calculateModelMemoryLimit` call. -/
def calculateModelMemoryLimitRouteResp {ε : Type}
    (bodyValid : Bool) (run : Except ε ModelMemoryEstimate) :
    RouteResponse ModelMemoryEstimate ε :=
  if bodyValid then passThroughHandler run else .validationFailed

/-- The payload of `POST /api/ml/validate/calculate_model_memory_limit`
as destructured by the local `calculateModelMemoryLimit` helper
(job_validation.ts lines 38-63). Field contents are opaque here, one type
parameter `V` stands for all of them. -/
structure CalculateModelMemoryLimitPayload (V : Type) where
  datafeedConfig : V
  analysisConfig : V
  indexPattern : V
  query : V
  timeFieldName : V
  earliestMs : V
  latestMs : V
deriving DecidableEq, Repr

/-- The positional argument list the local `calculateModelMemoryLimit`
helper passes to `calculateModelMemoryLimitProvider(client, mlClient)(...)`:
analysisConfig, indexPattern, query, timeFieldName, earliestMs, latestMs,
then the literal `undefined`, then datafeedConfig. -/
structure ProviderArgs (V : Type) where
  analysisConfig : V
  indexPattern : V
  query : V
  timeFieldName : V
  earliestMs : V
  latestMs : V
  seventhArg : Option V
  datafeedConfig : V
deriving DecidableEq, Repr

/-- The local helper `calculateModelMemoryLimit` (job_validation.ts lines
38-63): destructures the payload and forwards the fields, with `undefined`
as the seventh provider argument. -/
def calculateModelMemoryLimit {V : Type}
    (payload : CalculateModelMemoryLimitPayload V) : ProviderArgs V :=
  { analysisConfig := payload.analysisConfig
    indexPattern := payload.indexPattern
    query := payload.query
    timeFieldName := payload.timeFieldName
    earliestMs := payload.earliestMs
    latestMs := payload.latestMs
    seventhArg := none
    datafeedConfig := payload.datafeedConfig }

/-- The arguments the validate-job handler passes to `validateJob` after
`client` and `mlClient` (job_validation.ts lines 198-204): the request
body, `getAuthorizationHeader(request)`, and the boolean
`mlLicense.isSecurityEnabled() === false`. -/
structure ValidateJobArgs (B H : Type) where
  body : B
  authHeader : H
  isSecurityDisabled : Bool
deriving DecidableEq, Repr

/-- The arguments the datafeed_preview handler passes to
`validateDatafeedPreview` after `mlClient` (job_validation.ts lines
236-240): `getAuthorizationHeader(request)` and `request.body.job`. -/
structure ValidateDatafeedPreviewArgs (J H : Type) where
  authHeader : H
  job : J
deriving DecidableEq, Repr

/-- Body of `POST /api/ml/validate/datafeed_preview`: the handler reads
its `job` field. -/
structure ValidateDatafeedPreviewBody (J : Type) where
  job : J
deriving DecidableEq, Repr

/-- A run of a handler: the HTTP response it returns together with the
list of model calls its body makes (each element records the arguments
of one call). -/
structure HandlerRun (ρ κ : Type) where
  response : ρ
  modelCalls : List κ
deriving Repr

/-- Run of the estimate_bucket_span handler: one call to
`estimateBucketSpanFactory(client)(request.body)` with the whole body. -/
def runEstimateBucketSpanRoute {B α ε : Type}
    (model : B → Except ε (PromiseOutcome α ε)) (body : B) :
    HandlerRun (RouteResponse (EstimateRespBody α ε) ε) B :=
  { response := estimateBucketSpanHandler (model body)
    modelCalls := [body] }

/-- Run of the calculate_model_memory_limit handler: one call to the
provider through the local `calculateModelMemoryLimit` helper, with the
destructured body fields. -/
def runCalculateModelMemoryLimitRoute {V α ε : Type}
    (model : ProviderArgs V → Except ε α)
    (body : CalculateModelMemoryLimitPayload V) :
    HandlerRun (RouteResponse α ε) (ProviderArgs V) :=
  { response := passThroughHandler (model (calculateModelMemoryLimit body))
    modelCalls := [calculateModelMemoryLimit body] }

/-- Run of the cardinality handler: one call to
`validateCardinality(client, request.body)` with the whole body. -/
def runValidateCardinalityRoute {B α ε : Type}
    (model : B → Except ε α) (body : B) :
    HandlerRun (RouteResponse α ε) B :=
  { response := passThroughHandler (model body)
    modelCalls := [body] }

/-- Run of the validate-job handler: one call to `validateJob` with the
body, the authorization header, and `mlLicense.isSecurityEnabled() === false`. -/
def runValidateJobRoute {B H α ε : Type}
    (model : ValidateJobArgs B H → Except ε α)
    (securityEnabled : Bool) (body : B) (authHeader : H) :
    HandlerRun (RouteResponse α ε) (ValidateJobArgs B H) :=
  let args : ValidateJobArgs B H :=
    { body := body, authHeader := authHeader
      isSecurityDisabled := securityEnabled == false }
  { response := passThroughHandler (model args)
    modelCalls := [args] }

/-- Run of the datafeed_preview handler: one call to
`validateDatafeedPreview` with the authorization header and
`request.body.job`. -/
def runValidateDatafeedPreviewRoute {J H α ε : Type}
    (model : ValidateDatafeedPreviewArgs J H → Except ε α)
    (body : ValidateDatafeedPreviewBody J) (authHeader : H) :
    HandlerRun (RouteResponse α ε) (ValidateDatafeedPreviewArgs J H) :=
  let args : ValidateDatafeedPreviewArgs J H :=
    { authHeader := authHeader, job := body.job }
  { response := passThroughHandler (model args)
    modelCalls := [args] }

/-- How a route's outer `catch` surfaces a thrown error:
the estimate_bucket_span route rethrows `Boom.badRequest(e)`; the other
four return `response.customError(wrapError(e))`. -/
inductive CatchBehavior where
  | throwBoomBadRequest
  | returnCustomErrorWrapError
deriving DecidableEq, Repr

/-- Static registration data of one `router.post` call in
`jobValidationRoutes`: path, body-schema name, `options.tags`, the guard
wrapping the handler, the model function the handler calls, and the outer
catch behaviour. -/
structure RouteSpec where
  path : String
  schemaName : String
  tags : List String
  guard : String
  modelFn : String
  catchBehavior : CatchBehavior
deriving DecidableEq, Repr

def estimateBucketSpanRoute : RouteSpec :=
  { path := "/api/ml/validate/estimate_bucket_span"
    schemaName := "estimateBucketSpanSchema"
    tags := ["access:ml:canCreateJob"]
    guard := "routeGuard.fullLicenseAPIGuard"
    modelFn := "estimateBucketSpanFactory"
    catchBehavior := .throwBoomBadRequest }

def calculateModelMemoryLimitRoute : RouteSpec :=
  { path := "/api/ml/validate/calculate_model_memory_limit"
    schemaName := "modelMemoryLimitSchema"
    tags := ["access:ml:canCreateJob"]
    guard := "routeGuard.fullLicenseAPIGuard"
    modelFn := "calculateModelMemoryLimitProvider"
    catchBehavior := .returnCustomErrorWrapError }

def validateCardinalityRoute : RouteSpec :=
  { path := "/api/ml/validate/cardinality"
    schemaName := "validateCardinalitySchema"
    tags := ["access:ml:canCreateJob"]
    guard := "routeGuard.fullLicenseAPIGuard"
    modelFn := "validateCardinality"
    catchBehavior := .returnCustomErrorWrapError }

def validateJobRoute : RouteSpec :=
  { path := "/api/ml/validate/job"
    schemaName := "validateJobSchema"
    tags := ["access:ml:canCreateJob"]
    guard := "routeGuard.fullLicenseAPIGuard"
    modelFn := "validateJob"
    catchBehavior := .returnCustomErrorWrapError }

def validateDatafeedPreviewRoute : RouteSpec :=
  { path := "/api/ml/validate/datafeed_preview"
    schemaName := "validateDatafeedPreviewSchema"
    tags := ["access:ml:canCreateJob"]
    guard := "routeGuard.fullLicenseAPIGuard"
    modelFn := "validateDatafeedPreview"
    catchBehavior := .returnCustomErrorWrapError }

/-- The five `router.post` registrations of `jobValidationRoutes`, in
source order. -/
def jobValidationRoutes : List RouteSpec :=
  [estimateBucketSpanRoute,
   calculateModelMemoryLimitRoute,
   validateCardinalityRoute,
   validateJobRoute,
   validateDatafeedPreviewRoute]

/-- Modelled from the spec: `routeGuard.fullLicenseAPIGuard` (the ml
plugin's route guard, not part of this excerpt) runs the wrapped handler
only for a request that passes the full-license check and produces no
handler result otherwise. -/
def fullLicenseAPIGuard {ρ β : Type}
    (licenseValid : Bool) (handler : ρ → β) (req : ρ) : Option β :=
  if licenseValid then some (handler req) else none

end JobValidation

namespace NetshRule

/-- The fields of a process event that the "Disable Windows Firewall Rules
via Netsh" rule query reads. -/
structure WinEvent where
  category : String
  eventType : String
  processName : String
  processArgs : List String
deriving DecidableEq, Repr

/-- ASCII-lowercased code of a character, for case-insensitive keyword
comparison. -/
def lowerCode (c : Char) : Nat :=
  if 65 ≤ c.toNat && c.toNat ≤ 90 then c.toNat + 32 else c.toNat

/-- The EQL `:` operator on a keyword field: case-insensitive match (the
patterns in this rule contain no wildcards, so it is case-insensitive
equality). -/
def eqlLike (field pat : String) : Bool :=
  field.data.map lowerCode == pat.data.map lowerCode

/-- Whether `pat` occurs at the front of `hay`. -/
def isFrontMatch : List Char → List Char → Bool
  | _, [] => true
  | [], _ :: _ => false
  | a :: as, b :: bs => a == b && isFrontMatch as bs

/-- Whether `pat` occurs somewhere inside `hay`. -/
def hasSubList (hay pat : List Char) : Bool :=
  match hay with
  | [] => pat.isEmpty
  | _ :: rest => isFrontMatch hay pat || hasSubList rest pat

/-- Whether the string `pat` occurs inside the string `s`. -/
def hasSubString (s pat : String) : Bool :=
  hasSubList s.data pat.data

/-- The EQL `:` operator on an array field such as `process.args`: true
when some element matches. -/
def argsHas (args : List String) (pat : String) : Bool :=
  args.any (fun a => eqlLike a pat)

/-- The condition after `where` in the rule's query, with standard EQL
precedence: `and` binds tighter than `or`, so the text
`A and B and (C) or (D)` groups as `((A and B) and C) or D` and the
second disjunct is not constrained by `event.type` or `process.name`. -/
def netshQueryCond (e : WinEvent) : Bool :=
  ((e.eventType == "start" || e.eventType == "process_started")
    && eqlLike e.processName "netsh.exe"
    && (argsHas e.processArgs "disable" && argsHas e.processArgs "firewall"
        && argsHas e.processArgs "set"))
  || (argsHas e.processArgs "advfirewall" && argsHas e.processArgs "off"
      && argsHas e.processArgs "state")

/-- `process where <cond>`: the event category must be `process` and the
condition must hold. -/
def netshQueryMatches (e : WinEvent) : Bool :=
  e.category == "process" && netshQueryCond e

/-- The rule's `description` field, verbatim. -/
def netshRuleDescription : String :=
  "Identifies use of the netsh.exe to disable or weaken the local firewall. Attackers will use this command line tool to disable the firewall during troubleshooting or to enable network mobility."

/-- A process-start-style event whose process is not netsh.exe but whose
arguments contain `advfirewall`, `state`, `off`. -/
def nonNetshEvent : WinEvent :=
  { category := "process"
    eventType := "info"
    processName := "cmd.exe"
    processArgs := ["advfirewall", "set", "allprofiles", "state", "off"] }

end NetshRule

open JobValidation NetshRule

/-- C1: a request to POST /api/ml/validate/estimate_bucket_span with a
schema-valid body whose estimation runs without a thrown exception but
whose estimation promise rejects gets an HTTP 200 response whose body is
the sentinel object with `error := true` and the rejection reason as
`message`, not an HTTP error response. -/
theorem estimate_bucket_span_soft_failure_is_ok_sentinel
    {α ε : Type} (e : ε) :
    estimateBucketSpanRouteResp (α := α) true (.ok (.rejected e)) =
      .ok (.sentinel { error := true, message := e }) ∧
    statusCode (estimateBucketSpanRouteResp (α := α) true
      (.ok (.rejected e))) = some 200 := by
  constructor <;> rfl

/-- C2: on the estimate_bucket_span route, a malformed payload (body fails
the declared schema) or an exception thrown while running the estimation
code both produce an HTTP 400 response (the latter via the rethrown
`Boom.badRequest`). -/
theorem estimate_bucket_span_hard_errors_are_400
    {α ε : Type} (run : Except ε (PromiseOutcome α ε)) (e : ε) :
    statusCode (estimateBucketSpanRouteResp false run) = some 400 ∧
    statusCode (estimateBucketSpanRouteResp (α := α) true (.error e)) =
      some 400 := by
  constructor <;> rfl

/-- C3: all five registered routes carry the authorization tag
`access:ml:canCreateJob` in their registration options. -/
theorem all_routes_have_canCreateJob_tag :
    jobValidationRoutes.length = 5 ∧
    jobValidationRoutes.all
      (fun r => r.tags.contains "access:ml:canCreateJob") = true := by
  constructor <;> rfl

/-- C4 counterexample: the estimate_bucket_span route's catch branch does
not return `response.customError(wrapError(e))` (it throws
`Boom.badRequest(e)` instead), so not every route's catch branch uses the
generic wrapper. -/
theorem not_all_routes_catch_with_customError :
    jobValidationRoutes.all
      (fun r => r.catchBehavior == .returnCustomErrorWrapError) = false ∧
    estimateBucketSpanRoute ∈ jobValidationRoutes ∧
    estimateBucketSpanRoute.catchBehavior = .throwBoomBadRequest := by
  refine ⟨rfl, ?_, rfl⟩
  simp [jobValidationRoutes]

/-- C4 amended: every route other than estimate_bucket_span surfaces
thrown errors by returning `response.customError(wrapError(e))`; the
estimate_bucket_span route instead rethrows `Boom.badRequest(e)`, and a
thrown error in a pass-through handler indeed becomes a
`customError (wrapError e)` response. -/
theorem catch_behavior_per_route :
    jobValidationRoutes.all
      (fun r => r.catchBehavior ==
        (if r.path == "/api/ml/validate/estimate_bucket_span"
         then .throwBoomBadRequest
         else .returnCustomErrorWrapError)) = true ∧
    (∀ (ε : Type) (e : ε),
      passThroughHandler (α := Unit) (.error e) = .customError (wrapError e)) := by
  exact ⟨rfl, fun ε e => rfl⟩

/-- C5: on the calculate_model_memory_limit route, a schema-valid body
whose model call succeeds with estimate `v` gets an HTTP 200 response
whose body is `v` itself, an object with a string `modelMemoryLimit`
field. -/
theorem calculate_model_memory_limit_success_shape
    {ε : Type} (v : ModelMemoryEstimate) :
    calculateModelMemoryLimitRouteResp (ε := ε) true (.ok v) = .ok v ∧
    statusCode (calculateModelMemoryLimitRouteResp (ε := ε) true (.ok v)) =
      some 200 ∧
    ∃ s : String, v.modelMemoryLimit = s := by
  exact ⟨rfl, rfl, ⟨v.modelMemoryLimit, rfl⟩⟩

/-- C6: the validate-job handler's behaviour depends on
`mlLicense.isSecurityEnabled()`: it forwards
`isSecurityEnabled === false` as an argument to `validateJob`, so the
model call it makes differs between the two states of the flag. -/
theorem validate_job_depends_on_security_flag
    {B H α ε : Type} (model : ValidateJobArgs B H → Except ε α)
    (body : B) (authHeader : H) :
    (∀ securityEnabled : Bool,
      (runValidateJobRoute model securityEnabled body authHeader).modelCalls =
        [{ body := body, authHeader := authHeader
           isSecurityDisabled := securityEnabled == false }]) ∧
    (runValidateJobRoute model true body authHeader).modelCalls ≠
      (runValidateJobRoute model false body authHeader).modelCalls := by
  refine ⟨fun s => rfl, ?_⟩
  intro h
  simp only [runValidateJobRoute, List.cons.injEq] at h
  exact absurd (congrArg ValidateJobArgs.isSecurityDisabled h.1) (by simp)

/-- C6 witness: at a concrete model and body, the validate-job handler's
model call with the security flag enabled differs from the one with it
disabled. -/
theorem validate_job_depends_on_security_flag_witness :
    (runValidateJobRoute
      (fun _ : ValidateJobArgs Nat Nat => (Except.ok 0 : Except Nat Nat))
      true 1 2).modelCalls ≠
    (runValidateJobRoute
      (fun _ : ValidateJobArgs Nat Nat => (Except.ok 0 : Except Nat Nat))
      false 1 2).modelCalls :=
  (validate_job_depends_on_security_flag
    (fun _ : ValidateJobArgs Nat Nat => (Except.ok 0 : Except Nat Nat)) 1 2).2

/-- C7: every handler in the file is a direct pass-through: it makes
exactly one model call, built from the validated request body (whole body,
destructured fields, or the body's `job` field, plus per-route context
such as the authorization header), and on success returns the model
result unmodified as the body of an HTTP 200 response. -/
theorem handlers_are_single_call_pass_throughs :
    (∀ (B α ε : Type) (model : B → Except ε (PromiseOutcome α ε)) (body : B)
       (v : α),
      (runEstimateBucketSpanRoute model body).modelCalls = [body] ∧
      (model body = .ok (.resolved v) →
        (runEstimateBucketSpanRoute model body).response =
          .ok (.estimation v))) ∧
    (∀ (V α ε : Type) (model : ProviderArgs V → Except ε α)
       (body : CalculateModelMemoryLimitPayload V) (v : α),
      (runCalculateModelMemoryLimitRoute model body).modelCalls =
        [calculateModelMemoryLimit body] ∧
      (model (calculateModelMemoryLimit body) = .ok v →
        (runCalculateModelMemoryLimitRoute model body).response = .ok v)) ∧
    (∀ (B α ε : Type) (model : B → Except ε α) (body : B) (v : α),
      (runValidateCardinalityRoute model body).modelCalls = [body] ∧
      (model body = .ok v →
        (runValidateCardinalityRoute model body).response = .ok v)) ∧
    (∀ (B H α ε : Type) (model : ValidateJobArgs B H → Except ε α)
       (s : Bool) (body : B) (hdr : H) (v : α),
      (runValidateJobRoute model s body hdr).modelCalls =
        [{ body := body, authHeader := hdr, isSecurityDisabled := s == false }] ∧
      (model { body := body, authHeader := hdr,
               isSecurityDisabled := s == false } = .ok v →
        (runValidateJobRoute model s body hdr).response = .ok v)) ∧
    (∀ (J H α ε : Type) (model : ValidateDatafeedPreviewArgs J H → Except ε α)
       (body : ValidateDatafeedPreviewBody J) (hdr : H) (v : α),
      (runValidateDatafeedPreviewRoute model body hdr).modelCalls =
        [{ authHeader := hdr, job := body.job }] ∧
      (model { authHeader := hdr, job := body.job } = .ok v →
        (runValidateDatafeedPreviewRoute model body hdr).response = .ok v)) := by
  refine ⟨?_, ?_, ?_, ?_, ?_⟩
  · intro B α ε model body v
    refine ⟨rfl, fun h => ?_⟩
    simp [runEstimateBucketSpanRoute, h, estimateBucketSpanHandler]
  · intro V α ε model body v
    refine ⟨rfl, fun h => ?_⟩
    simp [runCalculateModelMemoryLimitRoute, h, passThroughHandler]
  · intro B α ε model body v
    refine ⟨rfl, fun h => ?_⟩
    simp [runValidateCardinalityRoute, h, passThroughHandler]
  · intro B H α ε model s body hdr v
    refine ⟨rfl, fun h => ?_⟩
    simp only [runValidateJobRoute]
    rw [h]
    rfl
  · intro J H α ε model body hdr v
    refine ⟨rfl, fun h => ?_⟩
    simp [runValidateDatafeedPreviewRoute, h, passThroughHandler]

/-- C7 witness: concrete instantiation at Nat-valued bodies and models of
the pass-through property, discharging the success hypotheses. -/
theorem handlers_are_single_call_pass_throughs_witness :
    (runEstimateBucketSpanRoute
      (fun _ : Nat => (.ok (.resolved 7) : Except Nat (PromiseOutcome Nat Nat)))
      3).response = .ok (.estimation 7) ∧
    (runValidateCardinalityRoute
      (fun _ : Nat => (.ok 9 : Except Nat Nat)) 4).response = .ok 9 := by
  exact ⟨(handlers_are_single_call_pass_throughs.1 Nat Nat Nat _ 3 7).2 rfl,
    (handlers_are_single_call_pass_throughs.2.2.1 Nat Nat Nat _ 4 9).2 rfl⟩

/-- C8: in the estimate_bucket_span handler, every rejection of the
awaited estimation promise is captured by the inner `.catch` and yields
the HTTP 200 sentinel response; HTTP 400 (the rethrown `Boom.badRequest`)
is reachable only from a synchronous exception outside that promise:
the three possible evaluation outcomes give 200, 200 and 400
respectively, and a 400 response implies the run was a synchronous
throw. -/
theorem estimate_bucket_span_400_only_on_sync_throw
    {α ε : Type} :
    (∀ e : ε, estimateBucketSpanHandler (α := α) (.ok (.rejected e)) =
        .ok (.sentinel { error := true, message := e }) ∧
      statusCode (estimateBucketSpanHandler (α := α) (.ok (.rejected e))) =
        some 200) ∧
    (∀ v : α, statusCode (estimateBucketSpanHandler (ε := ε)
        (.ok (.resolved v))) = some 200) ∧
    (∀ run : Except ε (PromiseOutcome α ε),
      statusCode (estimateBucketSpanHandler run) = some 400 →
        ∃ e : ε, run = .error e) := by
  refine ⟨fun e => ⟨rfl, rfl⟩, fun v => rfl, fun run h => ?_⟩
  match run with
  | .error e => exact ⟨e, rfl⟩
  | .ok (.resolved v) => simp [estimateBucketSpanHandler, statusCode] at h
  | .ok (.rejected e) => simp [estimateBucketSpanHandler, statusCode] at h

/-- C8 witness: concrete instantiation at Nat, discharging the 400
hypothesis at a synchronous throw. -/
theorem estimate_bucket_span_400_only_on_sync_throw_witness :
    ∃ e : Nat, (Except.error 7 : Except Nat (PromiseOutcome Nat Nat)) =
      .error e := by
  exact (estimate_bucket_span_400_only_on_sync_throw
    (α := Nat) (ε := Nat)).2.2 (.error 7) rfl

/-- C9: every one of the five route handlers is wrapped in
`routeGuard.fullLicenseAPIGuard`, and the guard (modelled from the spec)
produces no handler result for a request that fails the full-license
check, so no handler body runs for such a request. -/
theorem all_routes_full_license_guarded :
    jobValidationRoutes.all
      (fun r => r.guard == "routeGuard.fullLicenseAPIGuard") = true ∧
    (∀ (ρ β : Type) (handler : ρ → β) (req : ρ),
      fullLicenseAPIGuard false handler req = none) := by
  exact ⟨rfl, fun ρ β handler req => rfl⟩

/-- C10: under standard EQL precedence the netsh rule's query matches an
event whose process name is not netsh.exe — the `advfirewall`/`off`/
`state` disjunct is not constrained by the `event.type` and
`process.name` conditions — although the rule's description says the rule
identifies use of netsh.exe. -/
theorem netsh_rule_matches_non_netsh_process :
    netshQueryMatches nonNetshEvent = true ∧
    eqlLike nonNetshEvent.processName "netsh.exe" = false ∧
    hasSubString netshRuleDescription "netsh.exe" = true := by
  refine ⟨by decide, by decide, by decide⟩
